import Mathlib

/-!
Verification of the rdmotors support-bot core (src/main.py and the earlier
draft src/app.py) against its natural-language specification.

The embedding is shallow: Python functions become Lean functions, the
SQLAlchemy tables become lists of rows, `datetime` values become natural
numbers (seconds), and the Telegram side effects (reply_text, send_message,
reply_photo) are collected into an explicit `Effects` record.  I/O failures
(database exceptions, send failures) are injected through explicit boolean
flags, mirroring the `try/except` structure of the source.
-/

/-! ## Python character and string helpers

`str.lower`/`str.upper`/`str.isalnum` in Python are Unicode-aware; the texts
in this repository use ASCII and the Cyrillic block U+0400..U+04FF (plus
U+0490/U+0491), so the case maps are modelled exactly on those ranges and
fall back to the ASCII maps elsewhere. -/

def isSpaceChar (c : Char) : Bool :=
  c == ' ' || c == '\t' || c == '\n' || c == '\r' || c.toNat == 11 || c.toNat == 12

def pyLowerChar (c : Char) : Char :=
  if 0x410 ≤ c.toNat ∧ c.toNat ≤ 0x42F then Char.ofNat (c.toNat + 0x20)
  else if 0x400 ≤ c.toNat ∧ c.toNat ≤ 0x40F then Char.ofNat (c.toNat + 0x50)
  else if c.toNat = 0x490 then Char.ofNat 0x491
  else c.toLower

def pyUpperChar (c : Char) : Char :=
  if 0x430 ≤ c.toNat ∧ c.toNat ≤ 0x44F then Char.ofNat (c.toNat - 0x20)
  else if 0x450 ≤ c.toNat ∧ c.toNat ≤ 0x45F then Char.ofNat (c.toNat - 0x50)
  else if c.toNat = 0x491 then Char.ofNat 0x490
  else c.toUpper

def pyIsAlnumChar (c : Char) : Bool :=
  c.isAlphanum || (0x400 ≤ c.toNat && c.toNat ≤ 0x4FF)

def pyLowerS (s : String) : String := String.mk (s.data.map pyLowerChar)

def pyUpperS (s : String) : String := String.mk (s.data.map pyUpperChar)

/-- Python `str.isalnum`: false on the empty string, else true iff every
character is alphanumeric. -/
def pyIsAlnum (s : String) : Bool := !s.data.isEmpty && s.data.all pyIsAlnumChar

/-- `leadMatch n h` is true iff `n` is an initial segment of `h`. -/
def leadMatch : List Char → List Char → Bool
  | [], _ => true
  | _ :: _, [] => false
  | a :: as, b :: bs => a == b && leadMatch as bs

/-- Python `needle in hay` substring test. -/
def containsSeq (needle : List Char) : List Char → Bool
  | [] => needle.isEmpty
  | c :: rest => leadMatch needle (c :: rest) || containsSeq needle rest

def pyContainsS (needle hay : String) : Bool := containsSeq needle.data hay.data

/-- Python `s.split(sep)` with a one-character separator: splits on every
occurrence, keeps empty fields, returns `[s]` when the separator is absent. -/
def pySplit (sep : Char) : List Char → List (List Char)
  | [] => [[]]
  | c :: cs =>
    if c == sep then [] :: pySplit sep cs
    else
      match pySplit sep cs with
      | [] => [[c]]
      | p :: ps => (c :: p) :: ps

/-- Splitting at the FIRST separator only (what the spec describes for the
composite status text): `[before, after]` when the separator occurs, `[s]`
otherwise. -/
def pySplitFirst (sep : Char) : List Char → List (List Char)
  | [] => [[]]
  | c :: cs =>
    if c == sep then [[], cs]
    else
      match pySplitFirst sep cs with
      | [] => [[c]]
      | p :: ps => (c :: p) :: ps

/-- Python `str.strip()`. -/
def pyStrip (cs : List Char) : List Char :=
  ((cs.dropWhile isSpaceChar).reverse.dropWhile isSpaceChar).reverse

def pyStripS (s : String) : String := String.mk (pyStrip s.data)

/-- Python `s.split(maxsplit = n)`: whitespace-delimited split with at most
`n` splits; once the budget is exhausted the remainder (leading whitespace
stripped) is the final field. -/
def pySplitWsLimited : Nat → List Char → List (List Char)
  | 0, cs =>
    let cs2 := cs.dropWhile isSpaceChar
    if cs2.isEmpty then [] else [cs2]
  | Nat.succ m, cs =>
    let cs2 := cs.dropWhile isSpaceChar
    if cs2.isEmpty then []
    else
      (cs2.takeWhile (fun c => !isSpaceChar c)) ::
        pySplitWsLimited m (cs2.dropWhile (fun c => !isSpaceChar c))

/-! ## Anti-spam rate limiter (src/main.py lines 100-112) -/

def MESSAGE_LIMIT : Nat := 7

/-- `TIME_LIMIT = timedelta(minutes=1)`, in seconds. -/
def TIME_LIMIT : Nat := 60

/-- The list comprehension on line 108:
`[t for t in user_message_count[user_id] if now - t < TIME_LIMIT]`. -/
def trimWindow (tlist : List Nat) (now : Nat) : List Nat :=
  tlist.filter (fun t => now - t < TIME_LIMIT)

/-- `is_spam` (src/main.py lines 105-112), with the per-identity mutable list
passed and returned explicitly: trims the window, denies without recording
when the trimmed count reaches `MESSAGE_LIMIT`, otherwise records `now` and
allows. -/
def is_spam (tlist : List Nat) (now : Nat) : Bool × List Nat :=
  let recent := trimWindow tlist now
  if MESSAGE_LIMIT ≤ recent.length then (true, recent)
  else (false, recent ++ [now])

/-- Fold a sequence of event times through `is_spam`, collecting the verdicts
and the final per-identity list. -/
def runSpam : List Nat → List Nat → List Bool × List Nat
  | st, [] => ([], st)
  | st, e :: es =>
    let r := is_spam st e
    let rest := runSpam r.2 es
    (r.1 :: rest.1, rest.2)

lemma trimWindow_eq_self (st : List Nat) (lo now : Nat)
    (hlo : ∀ t ∈ st, lo ≤ t) (hnow : now < lo + TIME_LIMIT) :
    trimWindow st now = st := by
  unfold trimWindow
  apply List.filter_eq_self.mpr
  intro t ht
  have h := hlo t ht
  have hTL : TIME_LIMIT = 60 := rfl
  simp only [decide_eq_true_eq]
  omega

lemma is_spam_allow (st : List Nat) (now : Nat)
    (h : trimWindow st now = st) (hlen : st.length < MESSAGE_LIMIT) :
    is_spam st now = (false, st ++ [now]) := by
  unfold is_spam
  rw [h, if_neg (by omega)]

lemma is_spam_deny (st : List Nat) (now : Nat)
    (h : trimWindow st now = st) (hlen : MESSAGE_LIMIT ≤ st.length) :
    is_spam st now = (true, st) := by
  unfold is_spam
  rw [h, if_pos hlen]

lemma runSpam_fill (es : List Nat) : ∀ (st : List Nat) (lo : Nat),
    (∀ t ∈ st ++ es, lo ≤ t ∧ t < lo + TIME_LIMIT) →
    st.length + es.length ≤ MESSAGE_LIMIT →
    runSpam st es = (List.replicate es.length false, st ++ es) := by
  induction es with
  | nil => intro st lo _ _; simp [runSpam]
  | cons e es ih =>
    intro st lo h hlen
    have hst : ∀ t ∈ st, lo ≤ t := fun t ht => (h t (by simp [ht])).1
    have he : e < lo + TIME_LIMIT := (h e (by simp)).2
    have htrim : trimWindow st e = st := trimWindow_eq_self st lo e hst he
    have hlt : st.length < MESSAGE_LIMIT := by
      simp only [List.length_cons] at hlen; omega
    have h1 : is_spam st e = (false, st ++ [e]) := is_spam_allow st e htrim hlt
    have h2 : runSpam (st ++ [e]) es = (List.replicate es.length false, (st ++ [e]) ++ es) := by
      apply ih (st ++ [e]) lo
      · intro t ht
        apply h t
        simp only [List.append_assoc, List.singleton_append] at ht ⊢
        exact ht
      · simp only [List.length_append, List.length_cons, List.length_nil] at hlen ⊢
        omega
    simp only [runSpam, h1, h2, List.length_cons, List.replicate_succ,
      List.append_assoc, List.singleton_append]

/--
The first claim theorem appears further below; the following general lemmas
about `is_spam` are shared by the rate-limiter claims.
-/
lemma is_spam_drops_old (tlist : List Nat) (now t : Nat)
    (ht : t + TIME_LIMIT < now) : t ∉ (is_spam tlist now).2 := by
  intro hmem
  have hTL : TIME_LIMIT = 60 := rfl
  simp only [is_spam, trimWindow] at hmem
  split at hmem
  · rcases (List.mem_filter.mp hmem) with ⟨_, hp⟩
    simp only [decide_eq_true_eq] at hp
    omega
  · rcases List.mem_append.mp hmem with h | h
    · rcases (List.mem_filter.mp h) with ⟨_, hp⟩
      simp only [decide_eq_true_eq] at hp
      omega
    · simp only [List.mem_singleton] at h
      omega

lemma runSpam_append (as bs : List Nat) : ∀ st : List Nat,
    runSpam st (as ++ bs) =
      ((runSpam st as).1 ++ (runSpam (runSpam st as).2 bs).1,
       (runSpam (runSpam st as).2 bs).2) := by
  induction as with
  | nil => intro st; simp [runSpam]
  | cons a as ih => intro st; simp [runSpam, ih]

/-- C2: on each call `is_spam` first trims the stored timestamps to the
trailing window (every timestamp strictly older than `now - TIME_LIMIT` is
dropped); when the trimmed count is at or above `MESSAGE_LIMIT` it denies
without recording `now`, otherwise it appends `now` and allows.  Consequently,
starting from an empty window, `MESSAGE_LIMIT` events inside one window
duration are all admitted, the next event inside the same window is denied,
and a fresh event exactly one window duration after the first admitted event
is admitted again. -/
theorem C2_rate_limiter_semantics (e1 : Nat) (rest : List Nat) (e8 : Nat)
    (hlen : (e1 :: rest).length = MESSAGE_LIMIT)
    (hwin : ∀ e ∈ e1 :: (rest ++ [e8]), e1 ≤ e ∧ e < e1 + TIME_LIMIT) :
    (∀ tlist now t, t + TIME_LIMIT < now → t ∉ (is_spam tlist now).2) ∧
    (∀ tlist now, MESSAGE_LIMIT ≤ (trimWindow tlist now).length →
        is_spam tlist now = (true, trimWindow tlist now)) ∧
    (∀ tlist now, (trimWindow tlist now).length < MESSAGE_LIMIT →
        is_spam tlist now = (false, trimWindow tlist now ++ [now])) ∧
    (runSpam [] ((e1 :: rest) ++ [e8])).1
        = List.replicate MESSAGE_LIMIT false ++ [true] ∧
    (runSpam [] ((e1 :: rest) ++ [e8])).2 = e1 :: rest ∧
    (is_spam (runSpam [] ((e1 :: rest) ++ [e8])).2 (e1 + TIME_LIMIT)).1 = false := by
  have hM : MESSAGE_LIMIT = 7 := rfl
  have hTL : TIME_LIMIT = 60 := rfl
  have hwin' : ∀ e ∈ (e1 :: rest), e1 ≤ e ∧ e < e1 + TIME_LIMIT := by
    intro e he
    apply hwin
    rw [List.mem_cons] at he ⊢
    rcases he with h | h
    · exact Or.inl h
    · exact Or.inr (List.mem_append_left _ h)
  have hfill : runSpam [] (e1 :: rest) =
      (List.replicate (e1 :: rest).length false, [] ++ (e1 :: rest)) := by
    apply runSpam_fill (e1 :: rest) [] e1
    · intro t ht; exact hwin' t (by simpa using ht)
    · simp [hlen]
  have hfill' : runSpam [] (e1 :: rest) = (List.replicate MESSAGE_LIMIT false, e1 :: rest) := by
    rw [hfill, hlen]; simp
  have htrim8 : trimWindow (e1 :: rest) e8 = e1 :: rest := by
    apply trimWindow_eq_self _ e1
    · intro t ht; exact (hwin' t ht).1
    · exact (hwin e8 (by simp)).2
  have hdeny : is_spam (e1 :: rest) e8 = (true, e1 :: rest) := by
    apply is_spam_deny _ _ htrim8
    omega
  have hrun : runSpam [] ((e1 :: rest) ++ [e8]) =
      (List.replicate MESSAGE_LIMIT false ++ [true], e1 :: rest) := by
    rw [runSpam_append, hfill']
    simp [runSpam, hdeny]
  refine ⟨?_, ?_, ?_, ?_, ?_, ?_⟩
  · intro tlist now t ht; exact is_spam_drops_old tlist now t ht
  · intro tlist now h
    unfold is_spam
    rw [if_pos h]
  · intro tlist now h
    unfold is_spam
    rw [if_neg (by omega)]
  · rw [hrun]
  · rw [hrun]
  · rw [hrun]
    unfold is_spam trimWindow
    have hfe1 : (fun t => decide (e1 + TIME_LIMIT - t < TIME_LIMIT)) e1 = false := by
      simp
    have hlenrest : (List.filter (fun t => decide (e1 + TIME_LIMIT - t < TIME_LIMIT)) (e1 :: rest)).length
        < MESSAGE_LIMIT := by
      rw [List.filter_cons_of_neg (by simp)]
      have hle := List.length_filter_le (fun t => decide (e1 + TIME_LIMIT - t < TIME_LIMIT)) rest
      simp only [List.length_cons] at hlen
      omega
    simp only []
    rw [if_neg (by omega)]

/-- Witness for C2 at concrete inputs: seven events at seconds 0..6 are all
admitted, the eighth event at second 7 is denied, and a new event at second
60 is admitted again. -/
theorem C2_rate_limiter_semantics_witness :
    is_spam [0, 0, 0, 0, 0, 0, 0] 0 = (true, [0, 0, 0, 0, 0, 0, 0]) ∧
    is_spam [] 5 = (false, [5]) ∧
    (runSpam [] (((0 : Nat) :: [1, 2, 3, 4, 5, 6]) ++ [7])).1
        = List.replicate MESSAGE_LIMIT false ++ [true] ∧
    (is_spam (runSpam [] (((0 : Nat) :: [1, 2, 3, 4, 5, 6]) ++ [7])).2 (0 + TIME_LIMIT)).1 = false := by
  have h := C2_rate_limiter_semantics 0 [1, 2, 3, 4, 5, 6] 7 (by decide) (by decide)
  exact ⟨h.2.1 [0, 0, 0, 0, 0, 0, 0] 0 (by decide),
         h.2.2.1 [] 5 (by decide),
         h.2.2.2.1,
         h.2.2.2.2.2⟩

/-- C10: after any `is_spam` call whose prior list respects the length bound,
the stored list holds only timestamps within the window of that call's `now`,
and its length never exceeds `MESSAGE_LIMIT`. -/
theorem C10_rate_window_invariant (tlist : List Nat) (now : Nat)
    (hlen : tlist.length ≤ MESSAGE_LIMIT) :
    (∀ t ∈ (is_spam tlist now).2, now - t < TIME_LIMIT) ∧
    (is_spam tlist now).2.length ≤ MESSAGE_LIMIT := by
  have hTL : TIME_LIMIT = 60 := rfl
  have hfilt : ∀ t ∈ trimWindow tlist now, now - t < TIME_LIMIT := by
    intro t ht
    rcases List.mem_filter.mp ht with ⟨_, hp⟩
    simpa using hp
  have hfl := List.length_filter_le (fun t => decide (now - t < TIME_LIMIT)) tlist
  simp only [is_spam]
  split
  · exact ⟨hfilt, by
      simp only [trimWindow] at *
      omega⟩
  · constructor
    · intro t ht
      rcases List.mem_append.mp ht with h | h
      · exact hfilt t h
      · simp only [List.mem_singleton] at h
        omega
    · rename_i hc
      simp only [List.length_append, List.length_cons, List.length_nil]
      have : (trimWindow tlist now).length < MESSAGE_LIMIT := by omega
      omega

/-- Witness for C10 at a concrete input. -/
theorem C10_rate_window_invariant_witness :
    (is_spam [0, 3] 5).2.length ≤ MESSAGE_LIMIT :=
  (C10_rate_window_invariant [0, 3] 5 (by decide)).2

/-! ## Data model (src/main.py lines 46-94)

The three SQLAlchemy tables become lists of rows; `DateTime` columns become
`Nat` (seconds).  The per-identity rate state (`user_message_count`, a
`defaultdict(list)`) becomes an association list defaulting to `[]`. -/

structure MessageRow where
  user_id : Int
  username : String
  message : String
  timestamp : Nat
deriving Repr, DecidableEq

structure CarStatusRow where
  vin : String
  status : String
  container_number : String
  updated_at : Nat
deriving Repr, DecidableEq

structure BotUserRow where
  user_id : Int
  username : Option String
  first_name : Option String
  is_manager : Nat
deriving Repr, DecidableEq

structure BotState where
  messages : List MessageRow
  car_status : List CarStatusRow
  bot_users : List BotUserRow
  rate : List (Int × List Nat)
deriving Repr, DecidableEq

/-- Outbound side effects of one handler invocation: `reply_text` calls to
the sender, `bot.send_message` attempts to other chats, and `reply_photo`
calls, each in program order. -/
structure Effects where
  replies : List String
  sends : List (Int × String)
  photos : List (String × String)
deriving Repr, DecidableEq

def emptyEffects : Effects := ⟨[], [], []⟩

/-- Failure injection for the `try/except` blocks of the source: `readFail`
makes a database read raise, `writeFail` makes a database write raise, and
`sendFail` makes `bot.send_message` raise.  In `handle_user_message` of
src/main.py a send failure is only logged (lines 391-392), so `sendFail`
never influences that handler's replies or state. -/
structure Env where
  readFail : Bool
  writeFail : Bool
  sendFail : Bool
deriving Repr, DecidableEq

def rateOf (rate : List (Int × List Nat)) (uid : Int) : List Nat :=
  match rate.find? (fun p => p.1 == uid) with
  | some p => p.2
  | none => []

def setRate : List (Int × List Nat) → Int → List Nat → List (Int × List Nat)
  | [], uid, l => [(uid, l)]
  | p :: ps, uid, l => if p.1 == uid then (uid, l) :: ps else p :: setRate ps uid l

/-! ## Reply texts (src/main.py; apostrophes are written as the escape
`\x27` so that the strings match the source byte for byte). -/

def spamLimitMsg : String := "❗ Ви перевищили ліміт повідомлень. Спробуйте пізніше."

def vinNotFoundMsg : String :=
  "⚠️ Авто з таким VIN-кодом не знайдено в базі. Зачекайте оновлення менеджером."

/-- The formatted status card of src/main.py lines 327-336; the
`strftime('%d.%m.%Y %H:%M')` rendering of the timestamp is abstracted to
`toString`. -/
def statusCard (vin container last next : String) (updated : Nat) : String :=
  "🚗 *Статус авто*\n🔎 *VIN:* `" ++ vin ++ "`\n🔎 *МОРСЬКА ЛІНІЯ:* `MSC`\n📦 *Контейнер:* "
    ++ container ++ "\n📍 *Крайня локація:* " ++ last ++ "\n🧭 *Наступна зупинка:* "
    ++ next ++ "\n🕒 Актуально на: " ++ toString updated

def keyboard_texts : List String :=
  ["📥 Хочу авто зі США", "❓FAQ", "📞 Контакт", "📋 В наявності", "🚗 Де авто?"]

def whereCarMsg : String :=
  "🚗 Щоб дізнатись статус доставки, надайте VIN-код або номер замовлення."

def wantCarMsg : String :=
  "❗Обов\x27язково ознайомтесь з нашим договором перед заповненням!\n\n👋 Щоб розпочати процес доставки авто, заповніть форму\n\n/dogovir\n\n/forma"

def contactMsg : String :=
  "📞 Наш менеджер зв\x27яжеться з вами. Телефон: +380673951195"

def carPhotoPath : String := "available_cars/sonata2021.jpg"

def carPhotoCaption : String := "Hyundai Sonata 2021, $24,000"

def dogovirLink : String :=
  "https://docs.google.com/document/d/1VSmsVevCBc0BCSVnsJgdkwlZRWDY_hhjIbcnzPpsOVg/edit?usp=sharing"

def faqMsg : String :=
  "🚙 Натиснувши *\x27📥 Хочу авто зі США\x27* ви зможете розпочати процес покупки авто.\n\n❓ Щоб дізнатись статус замовлення, натисніть *\x27🚗 Де авто?\x27*.\n\n💵 Всі ціни залежать від багатьох факторів, а щоб більше дізнатися про це, перегляньте наш [договір]("
    ++ dogovirLink
    ++ ").\n\n☎️ Якщо вам потрібна термінова відповідь по запиту, зверніться за контактом у *📞 Контакт*.\n\n🚘 Щоб дізнатись про наявні авто RDMOTORS у продажі — дивіться *\x27📋 В наявності\x27*.\n\n_Якщо виникли питання — пишіть у чат, менеджер зв\x27яжеться з вами._"

def fwdAckMsg : String := "✅ Ваше повідомлення надіслано менеджеру."

def relayText (uname : String) (uid : Int) (text : String) : String :=
  "✉️ Повідомлення від @" ++ uname ++ " (ID: " ++ toString uid ++ "):\n" ++ text

def accessDeniedMsg : String := "❌ Access denied."

def vinUsageMsg : String := "⚠️ Format: /vinstatus <VIN> <container> <status>"

def vinFailMsg : String := "⚠️ Failed to update status."

def vinOkMsg (vin container status : String) : String :=
  "✅ Status updated for VIN " ++ vin ++ ":\n📦 Container: " ++ container
    ++ "\n📍 Status: " ++ status

def messagesFailMsg : String := "⚠️ Failed to retrieve messages."

def noMessagesMsg : String := "⚠️ No messages yet."

def replyUsageMsg : String := "⚠️ Format: /reply <user_id> <text>"

def replySentMsg : String := "✅ Message sent."

/-- The `except` reply of src/main.py line 306; the interpolated exception
text is abstracted away. -/
def replyFailMsg : String := "⚠️ Failed to send: "

def managerReplyMsg (t : String) : String := "📩 Reply from manager:\n" ++ t

/-! ## Database functions (src/main.py lines 119-178) -/

/-- `save_message_to_db` (lines 119-136): a pure insert; a write failure is
caught, logged and rolled back, so the caller always proceeds. -/
def save_message_to_db (writeFail : Bool) (msgs : List MessageRow)
    (uid : Int) (uname text : String) (now : Nat) : List MessageRow :=
  if writeFail then msgs else msgs ++ [⟨uid, uname, text, now⟩]

/-- `get_car_status_by_vin` (lines 139-154): returns the row's
`(status, container_number, updated_at)` when found; returns `None` both
when the VIN is absent AND when the query raises (the `except` on lines
150-152 swallows the error into `None`). -/
def get_car_status_by_vin (readFail : Bool) (table : List CarStatusRow)
    (vin : String) : Option (String × String × Nat) :=
  if readFail then none
  else
    match table.find? (fun r => r.vin == vin) with
    | some r => some (r.status, r.container_number, r.updated_at)
    | none => none

def saveBotUserAux : List BotUserRow → Int → Option String → Option String → List BotUserRow
  | [], uid, u, f => [⟨uid, u, f, 0⟩]
  | r :: rs, uid, u, f =>
    if r.user_id == uid then { r with username := u, first_name := f } :: rs
    else r :: saveBotUserAux rs uid u f

/-- `save_bot_user` (lines 157-178): upsert of the profile row; write
failures are swallowed. -/
def save_bot_user (writeFail : Bool) (users : List BotUserRow) (uid : Int)
    (username firstName : Option String) : List BotUserRow :=
  if writeFail then users else saveBotUserAux users uid username firstName

/-! ## Status-text resolution (src/main.py lines 324-326) -/

def UNKNOWN_MARK : String := "Невідомо"

/-- `parts[i].strip() if len(parts) > i and parts[i].strip() else "Невідомо"`
(src/main.py lines 325-326, for `i = 0, 1`). -/
def locField (parts : List String) (i : Nat) : String :=
  let pi := pyStripS (parts.getD i "")
  if i < parts.length ∧ pi ≠ "" then pi else UNKNOWN_MARK

/-- Lines 324-326 of src/main.py: `parts = status.split("|")` followed by
the two guarded field reads.  Note `split` has no `maxsplit`, so it splits
on EVERY delimiter. -/
def resolveLocations (status : String) : String × String :=
  let parts := (pySplit '|' status.data).map String.mk
  (locField parts 0, locField parts 1)

/-- Follows the spec's words (§4.3), for comparison with `resolveLocations`:
"the resolver splits on the first delimiter only and defaults each missing
side to an explicit unknown marker". -/
def specFirstOnlyResolve (status : String) : String × String :=
  let parts := (pySplitFirst '|' status.data).map String.mk
  (locField parts 0, locField parts 1)

/-! ## Free-text message handler (src/main.py lines 308-393) -/

/-- `user.username or user.first_name or "(No name)"` (line 312).
`None` is modelled by `Option`; Python additionally treats the empty string
as falsy, which never matters for the claims below. -/
def display_name (username firstName : Option String) : String :=
  (username.orElse fun _ => firstName).getD "(No name)"

/-- The keyboard branch of `handle_user_message` (lines 347-384): dispatch on
case-insensitive substrings of the (already keyboard-equal) text. -/
def menuDispatch (text : String) : Effects :=
  let lowered := pyLowerS text
  if pyContainsS "де авто" lowered then
    { emptyEffects with replies := [whereCarMsg] }
  else if pyContainsS "хочу авто зі сша" lowered then
    { emptyEffects with replies := [wantCarMsg] }
  else if pyContainsS "контакт" lowered || pyContainsS "телефон" lowered then
    { emptyEffects with replies := [contactMsg] }
  else if pyContainsS "в наявності" lowered || pyContainsS "які авто" lowered
      || pyContainsS "📋" text then
    { emptyEffects with photos := [(carPhotoPath, carPhotoCaption)] }
  else if pyContainsS "faq" lowered || pyContainsS "питання" lowered
      || pyContainsS "❓" text then
    { emptyEffects with replies := [faqMsg] }
  else emptyEffects

/-- `handle_user_message` (src/main.py lines 308-393).  The two
`datetime.now()` readings inside one event (rate check and archive
timestamp) are identified as the single arrival time `now`. -/
def handle_user_message (env : Env) (managerId : Int) (st : BotState)
    (sender : Int) (username firstName : Option String) (text : String)
    (now : Nat) : Effects × BotState :=
  let uname := display_name username firstName
  let spamRes := is_spam (rateOf st.rate sender) now
  let st2 : BotState :=
    { st with
      bot_users := save_bot_user env.writeFail st.bot_users sender username firstName,
      rate := setRate st.rate sender spamRes.2 }
  if spamRes.1 then
    ({ emptyEffects with replies := [spamLimitMsg] }, st2)
  else if text.length == 17 && pyIsAlnum text then
    match get_car_status_by_vin env.readFail st2.car_status (pyUpperS text) with
    | some (status, container, updated) =>
      ({ emptyEffects with
         replies := [statusCard (pyUpperS text) container
           (resolveLocations status).1 (resolveLocations status).2 updated] }, st2)
    | none => ({ emptyEffects with replies := [vinNotFoundMsg] }, st2)
  else if keyboard_texts.contains text then
    (menuDispatch text, st2)
  else
    ({ replies := [fwdAckMsg],
       sends := [(managerId, relayText uname sender text)],
       photos := [] },
     { st2 with
       messages := save_message_to_db env.writeFail st2.messages sender uname text now })

/-- The event category assigned by the ordered predicates of
`handle_user_message` (throttle check, then identifier shape, then keyboard
equality, then fallback). -/
inductive Category where
  | throttled
  | vinLookup
  | menu
  | fallback
deriving Repr, DecidableEq

def classify (st : BotState) (sender : Int) (text : String) (now : Nat) : Category :=
  if (is_spam (rateOf st.rate sender) now).1 then Category.throttled
  else if text.length == 17 && pyIsAlnum text then Category.vinLookup
  else if keyboard_texts.contains text then Category.menu
  else Category.fallback

/-- Follows the claim's words for C4: the text equals, or case-insensitively
contains, one of the fixed menu captions or branch keywords. -/
def specMenuMatch (text : String) : Bool :=
  keyboard_texts.contains text
    || keyboard_texts.any (fun k => pyContainsS (pyLowerS k) (pyLowerS text))
    || (["де авто", "хочу авто зі сша", "контакт", "телефон", "в наявності",
         "які авто", "📋", "faq", "питання", "❓"] : List String).any
        (fun k => pyContainsS k (pyLowerS text))

/-! ## Vehicle-status upsert and the operator commands
(src/main.py lines 216-306) -/

/-- The read-modify-write of src/main.py lines 235-247, first branch: the
row returned by `.first()` is updated in place. -/
def replaceFirstVin : List CarStatusRow → String → String → String → Nat → List CarStatusRow
  | [], _, _, _, _ => []
  | r :: rs, vin, status, container, now =>
    if r.vin == vin then
      { r with status := status, container_number := container, updated_at := now } :: rs
    else r :: replaceFirstVin rs vin status container now

/-- Lines 235-249: query by VIN; update the existing row if present, else
insert a new one. -/
def upsert_car_status (table : List CarStatusRow) (vin status container : String)
    (now : Nat) : List CarStatusRow :=
  match table.find? (fun r => r.vin == vin) with
  | some _ => replaceFirstVin table vin status container now
  | none => table ++ [⟨vin, status, container, now⟩]

/-- `update_vin_status` (src/main.py lines 216-259), the `/vinstatus`
command handler. -/
def update_vin_status (env : Env) (managerId : Int) (st : BotState)
    (sender : Int) (full_text : String) (now : Nat) : Effects × BotState :=
  if sender ≠ managerId then
    ({ emptyEffects with replies := [accessDeniedMsg] }, st)
  else
    let parts := (pySplitWsLimited 3 full_text.data).map String.mk
    if parts.length < 4 then
      ({ emptyEffects with replies := [vinUsageMsg] }, st)
    else
      let vin := pyUpperS (parts.getD 1 "")
      let container := parts.getD 2 ""
      let status := parts.getD 3 ""
      if env.writeFail then
        ({ emptyEffects with replies := [vinFailMsg] }, st)
      else
        ({ emptyEffects with replies := [vinOkMsg vin container status] },
         { st with car_status := upsert_car_status st.car_status vin status container now })

/-- The listing text of src/main.py lines 274-278, truncated to the
transport's 4096-character cap. -/
def renderMessages (msgs : List MessageRow) : String :=
  String.mk (("🗂 Last 10 messages:\n\n"
    ++ String.join (msgs.map fun m =>
        "🕒 " ++ toString m.timestamp ++ "\n👤 @" ++ m.username
          ++ " (ID: " ++ toString m.user_id ++ ")\n💬 " ++ m.message ++ "\n\n")).data.take 4096)

/-- `get_last_messages` (src/main.py lines 261-283), the `/messages`
command handler; `order_by(id.desc()).limit(n)` on the append-only table is
`reverse` then `take`. -/
def get_last_messages (env : Env) (managerId : Int) (st : BotState)
    (sender : Int) (limit : Nat) : Effects × BotState :=
  if sender ≠ managerId then
    ({ emptyEffects with replies := [accessDeniedMsg] }, st)
  else if env.readFail then
    ({ emptyEffects with replies := [messagesFailMsg] }, st)
  else
    let msgs := st.messages.reverse.take limit
    if msgs.isEmpty then
      ({ emptyEffects with replies := [noMessagesMsg] }, st)
    else
      ({ emptyEffects with replies := [renderMessages msgs] }, st)

/-- `reply_command` (src/main.py lines 285-306), the `/reply` command
handler; `int(user_id)` raising and the send raising both land in the same
`except`, replying with the failure text. -/
def reply_command (env : Env) (managerId : Int) (st : BotState)
    (sender : Int) (args : List String) : Effects × BotState :=
  if sender ≠ managerId then
    ({ emptyEffects with replies := [accessDeniedMsg] }, st)
  else if args.length < 2 then
    ({ emptyEffects with replies := [replyUsageMsg] }, st)
  else
    match (args.getD 0 "").toInt? with
    | some tid =>
      if env.sendFail then
        ({ emptyEffects with
           replies := [replyFailMsg],
           sends := [(tid, managerReplyMsg (String.intercalate " " (args.drop 1)))] }, st)
      else
        ({ emptyEffects with
           replies := [replySentMsg],
           sends := [(tid, managerReplyMsg (String.intercalate " " (args.drop 1)))] }, st)
    | none => ({ emptyEffects with replies := [replyFailMsg] }, st)

/-! ## The earlier draft's handler (src/app.py lines 55-94) -/

def APP_MANAGER_ID : Int := 1376857543

def app_keyboard_texts : List String :=
  ["📥 Пригін авто", "💰 Ціна", "📞 Контакт", "📋 В наявності", "🚗 Де авто?"]

def appAckMsg : String := "✅ Повідомлення надіслано менеджеру. Очікуйте відповідь."

def appSendErrMsg : String := "⚠️ Сталася помилка при відправці повідомлення."

def appWhereBase : String :=
  "🚗 Щоб дізнатись статус доставки, надайте VIN-код або номер замовлення.\nМи перевіримо і зателефонуємо вам найближчим часом."

def appWhereExtra : String :=
  "\n📍 Якщо авто ще не на місці, ми надамо вам точну інформацію."

def appFormMsg : String :=
  "👋 Щоб розпочати процес пригону авто, заповніть форму: https://forms.gle/BXkuZr9C5qEJHijd7"

def appPriceMsg : String :=
  "💰 Ціни залежать від авто. Напишіть, яка марка вас цікавить."

def appContactMsg : String :=
  "📞 Наш менеджер зателефонує найближчим часом. Телефон: +380XXXXXXXXX"

def appListMsg : String := "📋 Ось список авто:\nНатисніть /database"

/-- `handle_user_message` of src/app.py (lines 55-94).  Note the contrast
with src/main.py: the fallback branch is skipped for the manager identity,
and on a relay failure the sender receives an error notice INSTEAD of the
forwarded acknowledgment (the ack sits inside the `try`).  Archived rows are
`(user_id, username, message_text)` triples. -/
def app_handle_user_message (sendFail : Bool) (sender : Int)
    (username : Option String) (text : String)
    (archived : List (Int × String × String)) :
    Effects × List (Int × String × String) :=
  let uname := username.getD "(без username)"
  if !(app_keyboard_texts.contains text) && !(sender == APP_MANAGER_ID) then
    let archived2 := archived ++ [(sender, uname, text)]
    let sends := [(APP_MANAGER_ID, relayText uname sender text)]
    if sendFail then
      ({ replies := [appSendErrMsg], sends := sends, photos := [] }, archived2)
    else
      ({ replies := [appAckMsg], sends := sends, photos := [] }, archived2)
  else
    let lowered := pyLowerS text
    if pyContainsS "де авто" lowered || pyContainsS "статус доставки" lowered then
      ({ emptyEffects with
         replies := [if pyContainsS "де авто" lowered then appWhereBase ++ appWhereExtra
                     else appWhereBase] }, archived)
    else if pyContainsS "пригін авто" lowered then
      ({ emptyEffects with replies := [appFormMsg] }, archived)
    else if pyContainsS "ціна" lowered then
      ({ emptyEffects with replies := [appPriceMsg] }, archived)
    else if pyContainsS "контакт" lowered || pyContainsS "телефон" lowered then
      ({ emptyEffects with replies := [appContactMsg] }, archived)
    else if pyContainsS "в наявності" lowered || pyContainsS "які авто" lowered then
      ({ emptyEffects with replies := [appListMsg] }, archived)
    else
      (emptyEffects, archived)

/-! ## Concrete fixtures used by counterexamples and witnesses -/

def envOk : Env := ⟨false, false, false⟩

def envReadFail : Env := ⟨true, false, false⟩

def st0 : BotState := ⟨[], [], [], []⟩

def stWithVin : BotState :=
  { st0 with car_status := [⟨"WBAVA37503ABCD123", "Kyiv | Warsaw", "CNT99", 5⟩] }

lemma menuDispatch_sends (text : String) : (menuDispatch text).sends = [] := by
  simp only [menuDispatch]
  repeat' split
  all_goals rfl

lemma menuDispatch_no_archive (env : Env) (managerId : Int) (st : BotState)
    (sender : Int) (username firstName : Option String) (text : String) (now : Nat)
    (hspam : (is_spam (rateOf st.rate sender) now).1 = false)
    (hvin : (text.length == 17 && pyIsAlnum text) = false)
    (hkb : keyboard_texts.contains text = true) :
    (handle_user_message env managerId st sender username firstName text now).1.sends = [] ∧
    (handle_user_message env managerId st sender username firstName text now).2.messages
      = st.messages := by
  have hmem : text ∈ keyboard_texts := by simpa using hkb
  unfold handle_user_message
  simp [hspam, hvin, hmem, menuDispatch_sends]

/-- C9: a non-throttled event whose text has the identifier shape (exactly
17 characters, all alphanumeric) is classified as an identifier lookup and
never as a menu action — the identifier check precedes the keyboard check. -/
theorem C9_identifier_precedence (st : BotState) (sender : Int) (text : String) (now : Nat)
    (hspam : (is_spam (rateOf st.rate sender) now).1 = false)
    (hlen : text.length = 17) (halnum : pyIsAlnum text = true) :
    classify st sender text now = Category.vinLookup ∧
    classify st sender text now ≠ Category.menu := by
  have h : classify st sender text now = Category.vinLookup := by
    unfold classify
    simp [hspam, hlen, halnum]
  refine ⟨h, ?_⟩
  rw [h]
  decide

/-- Witness for C9 at a concrete identifier-shaped text. -/
theorem C9_identifier_precedence_witness :
    classify st0 5 "WBAVA37503ABCD123" 0 = Category.vinLookup :=
  (C9_identifier_precedence st0 5 "WBAVA37503ABCD123" 0
    (by decide) (by decide) (by decide)).1

/-- C8: a non-operator identity invoking `/vinstatus`, `/messages` or
`/reply` receives exactly the access-denied reply, no message is sent to
any other chat, and the state is unchanged. -/
theorem C8_access_denied (env : Env) (managerId : Int) (st : BotState) (sender : Int)
    (full_text : String) (args : List String) (now limit : Nat)
    (hne : sender ≠ managerId) :
    update_vin_status env managerId st sender full_text now
        = ({ emptyEffects with replies := [accessDeniedMsg] }, st) ∧
    get_last_messages env managerId st sender limit
        = ({ emptyEffects with replies := [accessDeniedMsg] }, st) ∧
    reply_command env managerId st sender args
        = ({ emptyEffects with replies := [accessDeniedMsg] }, st) := by
  refine ⟨?_, ?_, ?_⟩ <;>
    simp [update_vin_status, get_last_messages, reply_command, hne]

/-- Witness for C8 at a concrete non-operator sender. -/
theorem C8_access_denied_witness :
    update_vin_status envOk 1 st0 2 "/vinstatus VIN1 CNT S" 0
        = ({ emptyEffects with replies := [accessDeniedMsg] }, st0) :=
  (C8_access_denied envOk 1 st0 2 "/vinstatus VIN1 CNT S" [] 0 10 (by decide)).1

/-- C3 counterexample: in src/main.py's `handle_user_message` there is no
operator check on the fallback path, so a free-text event FROM the operator
identity (sender = managerId = 99) that matches no keyboard caption is
archived, relayed (to the operator themselves) and acknowledged — it is not
dropped silently as the claim states. -/
theorem C3_cex :
    (handle_user_message envOk 99 st0 99 (some "boss") none
        "Discount approval needed" 0).1.replies = [fwdAckMsg] ∧
    (handle_user_message envOk 99 st0 99 (some "boss") none
        "Discount approval needed" 0).1.sends
      = [(99, relayText "boss" 99 "Discount approval needed")] ∧
    (handle_user_message envOk 99 st0 99 (some "boss") none
        "Discount approval needed" 0).2.messages ≠ [] := by
  decide

/-- C3 amended: the claimed behaviour holds only in the earlier draft
src/app.py — there, an event whose sender is the operator identity and whose
text matches no menu keyword produces no reply, no archive row and no relay;
in src/main.py the operator's free text goes through the ordinary fallback
(see the counterexample). -/
theorem C3_operator_silence_app (sendFail : Bool) (username : Option String)
    (text : String) (archived : List (Int × String × String))
    (h1 : pyContainsS "де авто" (pyLowerS text) = false)
    (h2 : pyContainsS "статус доставки" (pyLowerS text) = false)
    (h3 : pyContainsS "пригін авто" (pyLowerS text) = false)
    (h4 : pyContainsS "ціна" (pyLowerS text) = false)
    (h5 : pyContainsS "контакт" (pyLowerS text) = false)
    (h6 : pyContainsS "телефон" (pyLowerS text) = false)
    (h7 : pyContainsS "в наявності" (pyLowerS text) = false)
    (h8 : pyContainsS "які авто" (pyLowerS text) = false) :
    app_handle_user_message sendFail APP_MANAGER_ID username text archived
      = (emptyEffects, archived) := by
  unfold app_handle_user_message
  simp [h1, h2, h3, h4, h5, h6, h7, h8]

/-- Witness for the amended C3 at a concrete operator message. -/
theorem C3_operator_silence_app_witness :
    app_handle_user_message false APP_MANAGER_ID (some "mgr") "Hello!" []
      = (emptyEffects, []) :=
  C3_operator_silence_app false (some "mgr") "Hello!" []
    (by decide) (by decide) (by decide) (by decide)
    (by decide) (by decide) (by decide) (by decide)

/-- C6 counterexample: in src/app.py the forwarded acknowledgment sits
INSIDE the `try`, so when the relay send fails the sender receives the
error notice instead of the acknowledgment — contradicting "receives it
regardless of whether the relay send succeeds or fails". -/
theorem C6_cex :
    (app_handle_user_message true 5 (some "u") "Can I get a discount?" []).1.replies
      = [appSendErrMsg] ∧
    appSendErrMsg ≠ appAckMsg := by
  decide

/-- C6 amended: in src/main.py's handler the claim does hold — for a
non-throttled, non-identifier, non-menu text from a non-operator sender,
exactly one relay attempt is made, the sender gets exactly one forwarded
acknowledgment whatever the send outcome (`env` is arbitrary, and a send
failure is only logged), and exactly one archive row is appended when the
archive write itself succeeds; src/app.py instead replaces the
acknowledgment by an error notice when the relay fails (see the
counterexample). -/
theorem C6_fallback_effects_main (env : Env) (managerId : Int) (st : BotState)
    (sender : Int) (username firstName : Option String) (text : String) (now : Nat)
    (_hop : sender ≠ managerId)
    (hspam : (is_spam (rateOf st.rate sender) now).1 = false)
    (hvin : (text.length == 17 && pyIsAlnum text) = false)
    (hkb : keyboard_texts.contains text = false) :
    (handle_user_message env managerId st sender username firstName text now).1.replies
      = [fwdAckMsg] ∧
    (handle_user_message env managerId st sender username firstName text now).1.sends
      = [(managerId, relayText (display_name username firstName) sender text)] ∧
    (env.writeFail = false →
      (handle_user_message env managerId st sender username firstName text now).2.messages
        = st.messages ++ [⟨sender, display_name username firstName, text, now⟩]) := by
  have hmem : text ∉ keyboard_texts := by simpa using hkb
  unfold handle_user_message
  refine ⟨?_, ?_, ?_⟩
  · simp [hspam, hvin, hmem]
  · simp [hspam, hvin, hmem]
  · intro hwf
    simp [hspam, hvin, hmem, save_message_to_db, hwf]

/-- Witness for the amended C6 at a concrete free-form message. -/
theorem C6_fallback_effects_main_witness :
    (handle_user_message envOk 99 st0 5 (some "u") none
        "Can I get a discount?" 0).1.replies = [fwdAckMsg] :=
  (C6_fallback_effects_main envOk 99 st0 5 (some "u") none "Can I get a discount?" 0
    (by decide) (by decide) (by decide) (by decide)).1

/-- C1 counterexample: with the VIN present in the store but the read
raising (envReadFail), the user receives exactly the same "not found"
message as when the VIN is genuinely absent from an intact store — there is
no distinct "lookup failed" message, because `get_car_status_by_vin`
swallows the exception into `None`. -/
theorem C1_cex :
    (handle_user_message envReadFail 99 stWithVin 5 (some "u") none
        "WBAVA37503ABCD123" 0).1.replies = [vinNotFoundMsg] ∧
    (handle_user_message envOk 99 st0 5 (some "u") none
        "WBAVA37503ABCD123" 0).1.replies = [vinNotFoundMsg] := by
  decide

/-- C1 amended: for every identifier-shaped lookup, an I/O failure while
reading the vehicle-status store is reported with THE SAME "not found"
message that is used when the identifier is absent (the store read returns
`None` in both cases and the router cannot tell them apart). -/
theorem C1_io_failure_reported_as_not_found (env : Env) (managerId : Int)
    (st : BotState) (sender : Int) (username firstName : Option String)
    (text : String) (now : Nat)
    (hspam : (is_spam (rateOf st.rate sender) now).1 = false)
    (hvin : (text.length == 17 && pyIsAlnum text) = true)
    (hfail : env.readFail = true) :
    (handle_user_message env managerId st sender username firstName text now).1.replies
      = [vinNotFoundMsg] ∧
    (∀ env2 : Env, env2.readFail = false →
      get_car_status_by_vin false st.car_status (pyUpperS text) = none →
      (handle_user_message env2 managerId st sender username firstName text now).1.replies
        = [vinNotFoundMsg]) := by
  constructor
  · unfold handle_user_message
    simp [hspam, hvin, hfail, get_car_status_by_vin]
  · intro env2 h2 hget
    unfold handle_user_message
    simp only [hspam, Bool.false_eq_true, if_false, hvin, if_true]
    rw [show ({ st with
        bot_users := save_bot_user env2.writeFail st.bot_users sender username firstName,
        rate := setRate st.rate sender (is_spam (rateOf st.rate sender) now).2 } : BotState).car_status
      = st.car_status from rfl, h2, hget]

/-- Witness for the amended C1: the lookup of a VIN that is present in the
store still renders the not-found message when the read fails. -/
theorem C1_io_failure_reported_as_not_found_witness :
    (handle_user_message envReadFail 41 stWithVin 7 (some "v") none
        "WBAVA37503ABCD123" 3).1.replies = [vinNotFoundMsg] :=
  (C1_io_failure_reported_as_not_found envReadFail 41 stWithVin 7 (some "v") none
    "WBAVA37503ABCD123" 3 (by decide) (by decide) (by decide)).1

/-- C4 counterexample: the text "faq" case-insensitively contains the menu
keyword "faq" (so the claim classifies it as a menu action), but
src/main.py requires the text to EQUAL one of the five keyboard captions,
so "faq" falls through to the fallback relay. -/
theorem C4_cex :
    specMenuMatch "faq" = true ∧
    classify st0 5 "faq" 0 = Category.fallback ∧
    Category.fallback ≠ Category.menu := by
  decide

/-- C4 amended: a non-throttled, non-identifier event is classified as a
menu action IFF its text exactly equals one of the five keyboard captions
(`text in keyboard_texts`, line 348); mere case-insensitive containment of
a caption or keyword does not trigger the menu path.  Menu actions produce
no relay and no archive row. -/
theorem C4_menu_requires_exact_caption (env : Env) (managerId : Int) (st : BotState)
    (sender : Int) (username firstName : Option String) (text : String) (now : Nat)
    (hspam : (is_spam (rateOf st.rate sender) now).1 = false)
    (hvin : (text.length == 17 && pyIsAlnum text) = false) :
    (classify st sender text now = Category.menu ↔ keyboard_texts.contains text = true) ∧
    (keyboard_texts.contains text = true →
      (handle_user_message env managerId st sender username firstName text now).1.sends = [] ∧
      (handle_user_message env managerId st sender username firstName text now).2.messages
        = st.messages) := by
  constructor
  · unfold classify
    simp only [hspam, Bool.false_eq_true, if_false, hvin, if_true]
    by_cases h : text ∈ keyboard_texts <;> simp [h]
  · intro hkb
    exact menuDispatch_no_archive env managerId st sender username firstName text now
      hspam hvin hkb

/-- Witness for the amended C4 at the caption "❓FAQ". -/
theorem C4_menu_requires_exact_caption_witness :
    (handle_user_message envOk 99 st0 5 (some "u") none "❓FAQ" 0).1.sends = [] :=
  ((C4_menu_requires_exact_caption envOk 99 st0 5 (some "u") none "❓FAQ" 0
    (by decide) (by decide)).2 (by decide)).1

/-! ## Lemmas about the delimiter splits, for claim C5 -/

lemma pySplit_ne_nil (sep : Char) (cs : List Char) : pySplit sep cs ≠ [] := by
  induction cs with
  | nil => simp [pySplit]
  | cons c cs ih =>
    simp only [pySplit]
    split
    · simp
    · cases h : pySplit sep cs with
      | nil => simp
      | cons p ps => simp

lemma pySplitFirst_ne_nil (sep : Char) (cs : List Char) : pySplitFirst sep cs ≠ [] := by
  induction cs with
  | nil => simp [pySplitFirst]
  | cons c cs ih =>
    simp only [pySplitFirst]
    split
    · simp
    · cases h : pySplitFirst sep cs with
      | nil => simp
      | cons p ps => simp

lemma pySplit_head_eq (sep : Char) (cs : List Char) :
    (pySplit sep cs).headD [] = (pySplitFirst sep cs).headD [] := by
  induction cs with
  | nil => rfl
  | cons c cs ih =>
    cases hc : c == sep with
    | true => simp [pySplit, pySplitFirst, hc]
    | false =>
      cases e1 : pySplit sep cs with
      | nil => exact absurd e1 (pySplit_ne_nil sep cs)
      | cons p ps =>
        cases e2 : pySplitFirst sep cs with
        | nil => exact absurd e2 (pySplitFirst_ne_nil sep cs)
        | cons q qs =>
          rw [e1, e2] at ih
          simp only [List.headD_cons] at ih
          simp [pySplit, pySplitFirst, hc, e1, e2, ih]

lemma pySplit_len_le_one (sep : Char) (cs : List Char)
    (h : (pySplit sep cs).length ≤ 1) : pySplit sep cs = [cs] := by
  induction cs with
  | nil => rfl
  | cons c cs ih =>
    cases hc : c == sep with
    | true =>
      exfalso
      have h1 := pySplit_ne_nil sep cs
      simp only [pySplit, hc, if_true, List.length_cons] at h
      exact h1 (List.length_eq_zero.mp (by omega))
    | false =>
      cases e1 : pySplit sep cs with
      | nil => exact absurd e1 (pySplit_ne_nil sep cs)
      | cons p ps =>
        simp only [pySplit, hc, Bool.false_eq_true, if_false, e1, List.length_cons] at h ⊢
        have hps : ps = [] := List.length_eq_zero.mp (by omega)
        subst hps
        have hp : pySplit sep cs = [cs] := ih (by rw [e1]; simp)
        rw [e1] at hp
        simp only [List.cons.injEq] at hp
        simp [hp.1]

lemma pySplit_eq_first_of_le_two (sep : Char) (cs : List Char)
    (h : (pySplit sep cs).length ≤ 2) : pySplit sep cs = pySplitFirst sep cs := by
  induction cs with
  | nil => rfl
  | cons c cs ih =>
    cases hc : c == sep with
    | true =>
      simp only [pySplit, pySplitFirst, hc, if_true, List.length_cons] at h ⊢
      rw [pySplit_len_le_one sep cs (by omega)]
    | false =>
      cases e1 : pySplit sep cs with
      | nil => exact absurd e1 (pySplit_ne_nil sep cs)
      | cons p ps =>
        cases e2 : pySplitFirst sep cs with
        | nil => exact absurd e2 (pySplitFirst_ne_nil sep cs)
        | cons q qs =>
          have hlen : (pySplit sep cs).length ≤ 2 := by
            simp only [pySplit, hc, Bool.false_eq_true, if_false, e1,
              List.length_cons] at h
            rw [e1]
            simp only [List.length_cons]
            omega
          have heq := ih hlen
          rw [e1, e2] at heq
          simp only [List.cons.injEq] at heq
          simp [pySplit, pySplitFirst, hc, e1, e2, heq.1, heq.2]

lemma locField_ne_empty (parts : List String) (i : Nat) : locField parts i ≠ "" := by
  simp only [locField]
  split
  · rename_i h
    exact h.2
  · decide

/-- C5 counterexample: on the stored status text "Kyiv|Warsaw|Berlin" the
code's resolver (which calls `split("|")` with no `maxsplit`) yields second
sub-field "Warsaw", while splitting on the first delimiter only — as the
claim states — would keep "Warsaw|Berlin" in the second sub-field.  The
text after the second delimiter is silently dropped. -/
theorem C5_cex :
    resolveLocations "Kyiv|Warsaw|Berlin" = ("Kyiv", "Warsaw") ∧
    specFirstOnlyResolve "Kyiv|Warsaw|Berlin" = ("Kyiv", "Warsaw|Berlin") ∧
    resolveLocations "Kyiv|Warsaw|Berlin" ≠ specFirstOnlyResolve "Kyiv|Warsaw|Berlin" := by
  decide

/-- C5 amended: the resolver splits on EVERY delimiter and keeps only the
first two fields (so text after a second delimiter is dropped from the
second sub-field); the first sub-field nevertheless agrees with a
first-delimiter-only split, the two resolvers agree whenever the status
text has at most one delimiter, and each missing or empty sub-field is
rendered as the explicit unknown marker — never as an empty string. -/
theorem C5_resolver_fields (status : String) :
    (resolveLocations status).1 = (specFirstOnlyResolve status).1 ∧
    (resolveLocations status).1 ≠ "" ∧
    (resolveLocations status).2 ≠ "" ∧
    ((pySplit '|' status.data).length ≤ 2 →
      resolveLocations status = specFirstOnlyResolve status) := by
  refine ⟨?_, ?_, ?_, ?_⟩
  · unfold resolveLocations specFirstOnlyResolve
    cases e1 : pySplit '|' status.data with
    | nil => exact absurd e1 (pySplit_ne_nil _ _)
    | cons p ps =>
      cases e2 : pySplitFirst '|' status.data with
      | nil => exact absurd e2 (pySplitFirst_ne_nil _ _)
      | cons q qs =>
        have hh := pySplit_head_eq '|' status.data
        rw [e1, e2] at hh
        simp only [List.headD_cons] at hh
        subst hh
        simp [locField]
  · exact locField_ne_empty _ 0
  · exact locField_ne_empty _ 1
  · intro h
    unfold resolveLocations specFirstOnlyResolve
    rw [pySplit_eq_first_of_le_two '|' status.data h]

/-- Witness for the amended C5: with at most one delimiter the two
resolvers agree, and fields round through the unknown marker. -/
theorem C5_resolver_fields_witness :
    resolveLocations "Kyiv | Warsaw" = specFirstOnlyResolve "Kyiv | Warsaw" :=
  (C5_resolver_fields "Kyiv | Warsaw").2.2.2 (by decide)

/-! ## Lemmas about the vehicle-status table, for claim C7 -/

def vinKeys (t : List CarStatusRow) : List String := t.map (fun r => r.vin)

/-- The `car_status` primary-key invariant: at most one row per VIN. -/
def uniqueVins (t : List CarStatusRow) : Prop := (vinKeys t).Nodup

def countVin (t : List CarStatusRow) (v : String) : Nat :=
  (t.filter (fun r => r.vin == v)).length

lemma vinKeys_replaceFirstVin (t : List CarStatusRow) (v s c : String) (n : Nat) :
    vinKeys (replaceFirstVin t v s c n) = vinKeys t := by
  induction t with
  | nil => rfl
  | cons r rs ih =>
    unfold replaceFirstVin
    split
    · simp [vinKeys]
    · simp only [vinKeys, List.map_cons] at ih ⊢
      rw [ih]

lemma find?_append_of_none {α : Type} {p : α → Bool} (l1 l2 : List α)
    (h : l1.find? p = none) : (l1 ++ l2).find? p = l2.find? p := by
  induction l1 with
  | nil => simp
  | cons r rs ih =>
    cases hp : p r with
    | true =>
      rw [List.find?_cons_of_pos _ hp] at h
      exact absurd h (by simp)
    | false =>
      rw [List.find?_cons_of_neg _ (by simp [hp])] at h
      rw [List.cons_append, List.find?_cons_of_neg _ (by simp [hp])]
      exact ih h

lemma get_replaceFirstVin (t : List CarStatusRow) (v s c : String) (n : Nat)
    (h : ∃ x ∈ t, x.vin = v) :
    (replaceFirstVin t v s c n).find? (fun r => r.vin == v) = some ⟨v, s, c, n⟩ := by
  induction t with
  | nil => rcases h with ⟨x, hx, _⟩; exact absurd hx (List.not_mem_nil x)
  | cons r rs ih =>
    cases hr : r.vin == v with
    | true =>
      have hrv : r.vin = v := by simpa using hr
      unfold replaceFirstVin
      rw [hr]
      simp only [if_true]
      rw [List.find?_cons_of_pos _ (by simpa using hr)]
      cases r
      simp_all
    | false =>
      have hrv : r.vin ≠ v := by simpa using hr
      unfold replaceFirstVin
      rw [hr]
      simp only [Bool.false_eq_true, if_false]
      rw [List.find?_cons_of_neg _ (by simp [hr])]
      apply ih
      rcases h with ⟨x, hx, hxv⟩
      rcases List.mem_cons.mp hx with hxr | hxs
      · exact absurd (hxr ▸ hxv) hrv
      · exact ⟨x, hxs, hxv⟩

lemma get_upsert (t : List CarStatusRow) (v s c : String) (n : Nat) :
    get_car_status_by_vin false (upsert_car_status t v s c n) v = some (s, c, n) := by
  unfold upsert_car_status
  cases hf : t.find? (fun r => r.vin == v) with
  | none =>
    unfold get_car_status_by_vin
    rw [if_neg (by simp)]
    rw [find?_append_of_none _ _ hf]
    rw [List.find?_cons_of_pos _ (by simp)]
  | some r0 =>
    unfold get_car_status_by_vin
    rw [if_neg (by simp)]
    rw [get_replaceFirstVin t v s c n
      ⟨r0, List.mem_of_find?_eq_some hf, by simpa using List.find?_some hf⟩]

lemma countVin_zero_of_none (t : List CarStatusRow) (v : String)
    (h : t.find? (fun r => r.vin == v) = none) :
    countVin t v = 0 := by
  unfold countVin
  have hall := List.find?_eq_none.mp h
  induction t with
  | nil => rfl
  | cons r rs ih =>
    rw [List.filter_cons_of_neg (by simpa using hall r (List.mem_cons_self r rs))]
    exact ih (by
      rw [List.find?_cons_of_neg _ (by simpa using hall r (List.mem_cons_self r rs))] at h
      exact h) (fun x hx => hall x (List.mem_cons_of_mem r hx))

lemma countVin_replaceFirst_of_nodup (t : List CarStatusRow) (v s c : String) (n : Nat)
    (hu : uniqueVins t) (hmem : ∃ x ∈ t, x.vin = v) :
    countVin (replaceFirstVin t v s c n) v = 1 := by
  induction t with
  | nil => rcases hmem with ⟨x, hx, _⟩; exact absurd hx (List.not_mem_nil x)
  | cons r rs ih =>
    have hu2 := (List.nodup_cons.mp hu)
    cases hr : r.vin == v with
    | true =>
      have hrv : r.vin = v := by simpa using hr
      unfold replaceFirstVin
      rw [hr]
      simp only [if_true]
      unfold countVin
      rw [List.filter_cons_of_pos (by simpa using hr)]
      have hrs : rs.filter (fun x => x.vin == v) = [] := by
        apply List.filter_eq_nil_iff.mpr
        intro x hx
        simp only [ne_eq, Bool.not_eq_true, beq_eq_false_iff_ne]
        intro hxv
        exact hu2.1 (List.mem_map.mpr ⟨x, hx, by simp [hxv, hrv]⟩)
      simp [hrs]
    | false =>
      have hrv : r.vin ≠ v := by simpa using hr
      unfold replaceFirstVin
      rw [hr]
      simp only [Bool.false_eq_true, if_false]
      unfold countVin
      rw [List.filter_cons_of_neg (by simp [hr])]
      apply ih hu2.2
      rcases hmem with ⟨x, hx, hxv⟩
      rcases List.mem_cons.mp hx with hxr | hxs
      · exact absurd (hxr ▸ hxv) hrv
      · exact ⟨x, hxs, hxv⟩

lemma uniqueVins_upsert (t : List CarStatusRow) (v s c : String) (n : Nat)
    (hu : uniqueVins t) : uniqueVins (upsert_car_status t v s c n) := by
  unfold upsert_car_status
  cases hf : t.find? (fun r => r.vin == v) with
  | some r0 =>
    unfold uniqueVins
    rw [vinKeys_replaceFirstVin]
    exact hu
  | none =>
    have hnotin : v ∉ vinKeys t := by
      intro hmem
      rcases List.mem_map.mp hmem with ⟨x, hx, hxv⟩
      have := List.find?_eq_none.mp hf x hx
      simp [hxv] at this
    unfold uniqueVins vinKeys
    rw [List.map_append]
    rw [List.nodup_append]
    refine ⟨hu, List.nodup_singleton v, ?_⟩
    intro a ha hb
    simp only [List.map_cons, List.map_nil, List.mem_singleton] at hb
    exact hnotin (hb ▸ ha)

lemma countVin_upsert_one (t : List CarStatusRow) (v s c : String) (n : Nat)
    (hu : uniqueVins t) : countVin (upsert_car_status t v s c n) v = 1 := by
  unfold upsert_car_status
  cases hf : t.find? (fun r => r.vin == v) with
  | none =>
    unfold countVin
    rw [List.filter_append]
    have h0 : t.filter (fun r => r.vin == v) = [] := by
      have := countVin_zero_of_none t v hf
      unfold countVin at this
      exact List.length_eq_zero.mp this
    rw [h0]
    simp
  | some r0 =>
    exact countVin_replaceFirst_of_nodup t v s c n hu
      ⟨r0, List.mem_of_find?_eq_some hf, by simpa using List.find?_some hf⟩

lemma upsert_spec (t : List CarStatusRow) (v s c : String) (n : Nat)
    (hu : uniqueVins t) :
    get_car_status_by_vin false (upsert_car_status t v s c n) v = some (s, c, n) ∧
    uniqueVins (upsert_car_status t v s c n) ∧
    countVin (upsert_car_status t v s c n) v = 1 :=
  ⟨get_upsert t v s c n, uniqueVins_upsert t v s c n hu, countVin_upsert_one t v s c n hu⟩

/-- C7: for any identifier of the fixed shape, and any table satisfying the
primary-key invariant, upserting a (status, reference) pair under the
case-normalized key and then reading the same key returns exactly the
fields last written; a second upsert with the same identifier overwrites
rather than duplicates, so exactly one row for that identifier exists after
each upsert and the key invariant is preserved. -/
theorem C7_upsert_roundtrip (t : List CarStatusRow) (rawVin s1 c1 s2 c2 : String)
    (t1 t2 : Nat) (hu : uniqueVins t)
    (_hlen : rawVin.length = 17) (_halnum : pyIsAlnum rawVin = true) :
    get_car_status_by_vin false (upsert_car_status t (pyUpperS rawVin) s1 c1 t1)
        (pyUpperS rawVin) = some (s1, c1, t1) ∧
    uniqueVins (upsert_car_status t (pyUpperS rawVin) s1 c1 t1) ∧
    countVin (upsert_car_status t (pyUpperS rawVin) s1 c1 t1) (pyUpperS rawVin) = 1 ∧
    get_car_status_by_vin false
        (upsert_car_status (upsert_car_status t (pyUpperS rawVin) s1 c1 t1)
          (pyUpperS rawVin) s2 c2 t2) (pyUpperS rawVin) = some (s2, c2, t2) ∧
    uniqueVins (upsert_car_status (upsert_car_status t (pyUpperS rawVin) s1 c1 t1)
        (pyUpperS rawVin) s2 c2 t2) ∧
    countVin (upsert_car_status (upsert_car_status t (pyUpperS rawVin) s1 c1 t1)
        (pyUpperS rawVin) s2 c2 t2) (pyUpperS rawVin) = 1 := by
  have h1 := upsert_spec t (pyUpperS rawVin) s1 c1 t1 hu
  have h2 := upsert_spec (upsert_car_status t (pyUpperS rawVin) s1 c1 t1)
    (pyUpperS rawVin) s2 c2 t2 h1.2.1
  exact ⟨h1.1, h1.2.1, h1.2.2, h2.1, h2.2.1, h2.2.2⟩

/-- Witness for C7 at a concrete lower-case identifier (exercising the
upper-case normalization) on the empty table. -/
theorem C7_upsert_roundtrip_witness :
    get_car_status_by_vin false
        (upsert_car_status [] (pyUpperS "wbava37503abcd123") "Kyiv | Warsaw" "CNT99" 5)
        (pyUpperS "wbava37503abcd123") = some ("Kyiv | Warsaw", "CNT99", 5) :=
  (C7_upsert_roundtrip [] "wbava37503abcd123" "Kyiv | Warsaw" "CNT99" "Odesa" "CNT42" 5 9
    (by simp [uniqueVins, vinKeys]) (by decide) (by decide)).1
